import Mathlib

/-!
Verification of the `@brainus/ai` JavaScript SDK client (`BrainusAI` class)
against its natural-language specification.

The client is a thin typed wrapper over `fetch`: it validates its
configuration, builds JSON request bodies, executes requests with an
exponential-backoff retry loop, maps non-2xx responses to a typed error
taxonomy, and remaps snake_case response payloads to camelCase records.

This file shallowly embeds that code: JavaScript values that can appear in
parsed JSON (plus `undefined`) become the inductive `Js`; the `fetch`
transport becomes a function from the attempt index to an outcome; thrown
errors become an `SDKError` value inside `Except`; the retry loop becomes a
fuel-based recursion that also records the number of transport calls and
the backoff waits, so that the retry-count and backoff claims are statable.
-/

/-- A JavaScript value as it can appear in this client: parsed JSON
(null, booleans, numbers, strings, arrays, objects) plus `undefined`,
which is what property access on a missing key yields. Numbers are
modelled as integers: every numeric value the claims touch (HTTP statuses,
page numbers, retry-after seconds) is integral. -/
inductive Js where
  | undefined : Js
  | null : Js
  | bool : Bool → Js
  | num : Int → Js
  | str : String → Js
  | arr : List Js → Js
  | obj : List (String × Js) → Js
deriving Repr

/-- JavaScript property access `j[name]`: the field value on an object
holding the key, `undefined` otherwise. -/
def Js.getField (j : Js) (name : String) : Js :=
  match j with
  | .obj fields =>
    match fields.lookup name with
    | some v => v
    | none => .undefined
  | _ => .undefined

/-- JavaScript truthiness of a `Js` value: `undefined`, `null`, `false`,
`0` and the empty string are falsy; every other value (including empty
arrays and empty objects) is truthy. -/
def Js.truthy : Js → Bool
  | .undefined => false
  | .null => false
  | .bool b => b
  | .num n => decide (n ≠ 0)
  | .str s => decide (s ≠ "")
  | .arr _ => true
  | .obj _ => true

/-- The JavaScript `a || b` operator: `a` when truthy, else `b`. -/
def jsOr (a b : Js) : Js :=
  if a.truthy then a else b

/-- Helper for `needle.isPrefixOf` scanned along a list: JavaScript
`String.prototype.includes` on the underlying character lists. -/
def charsContain (needle : List Char) : List Char → Bool
  | [] => needle.isEmpty
  | c :: cs => needle.isPrefixOf (c :: cs) || charsContain needle cs

/-- JavaScript `s.includes(sub)`: `sub` occurs contiguously in `s`. -/
def jsIncludes (s sub : String) : Bool :=
  charsContain sub.data s.data

/-- JavaScript `s.startsWith(p)`. -/
def jsStartsWith (s p : String) : Bool :=
  p.data.isPrefixOf s.data

/-- `sub` occurs contiguously inside `s` (specification-side statement of
string containment, used to phrase "the message includes ..." claims). -/
def containsSubstring (s sub : String) : Prop :=
  ∃ p q, s = p ++ sub ++ q

/-- Lowercase every character of a string (character-by-character, which
covers the ASCII header names and the literal `"quota"` the client
compares). -/
def asciiLower (s : String) : String :=
  String.mk (s.data.map Char.toLower)

/-- JavaScript `String.prototype.toLowerCase` as the client uses it. -/
def jsToLower (s : String) : String :=
  asciiLower s

/-- JavaScript number: `parseInt` can produce `NaN`. -/
inductive JsNumber where
  | nan : JsNumber
  | int : Int → JsNumber
deriving Repr, DecidableEq

/-- Leading decimal digits of a character list as a number, `none` when
the list does not start with a digit. -/
def parseDigits : List Char → Option Nat → Option Nat
  | [], acc => acc
  | c :: cs, acc =>
    if c.isDigit then
      parseDigits cs (some ((acc.getD 0) * 10 + (c.toNat - '0'.toNat)))
    else acc

/-- JavaScript `parseInt(s, 10)`: skip leading whitespace, accept an
optional sign, read leading decimal digits; `NaN` when no digit follows. -/
def parseIntJs (s : String) : JsNumber :=
  match (s.data.dropWhile (fun c => c = ' ' ∨ c = '\t' ∨ c = '\n' ∨ c = '\r')) with
  | '-' :: rest =>
    match parseDigits rest none with
    | some n => .int (-(n : Int))
    | none => .nan
  | '+' :: rest =>
    match parseDigits rest none with
    | some n => .int (n : Int)
    | none => .nan
  | rest =>
    match parseDigits rest none with
    | some n => .int (n : Int)
    | none => .nan

/-- Modelled from the spec: the error classes of the missing `errors.ts`
module (only the client code importing them is in the repository). One
constructor per class named in the spec taxonomy — `APIError` with its
optional status code, `AuthenticationError`, `RateLimitError` with its
optional retry-after hint, `QuotaExceededError` — plus `jsError` for a
plain JavaScript `Error` (network failure, timeout abort, JSON parse
error), which is none of the SDK classes. -/
inductive SDKError where
  | apiError : String → Option Nat → SDKError
  | authenticationError : String → SDKError
  | rateLimitError : String → Option JsNumber → SDKError
  | quotaExceededError : String → SDKError
  | jsError : String → SDKError
deriving Repr

/-- The `message` property of a thrown error. -/
def SDKError.message : SDKError → String
  | .apiError m _ => m
  | .authenticationError m => m
  | .rateLimitError m _ => m
  | .quotaExceededError m => m
  | .jsError m => m

/-- Modelled from the spec: `error instanceof AuthenticationError`. -/
def isAuthenticationError : SDKError → Bool
  | .authenticationError _ => true
  | _ => false

/-- Modelled from the spec: `error instanceof QuotaExceededError`. -/
def isQuotaExceededError : SDKError → Bool
  | .quotaExceededError _ => true
  | _ => false

/-- Modelled from the spec: `error instanceof APIError`. The spec states
that authentication, quota and rate-limit errors are never retried; with
the retry guard in `makeRequest` this forces the three named classes to be
subclasses of `APIError` (the standard SDK pattern), so every SDK error is
an `APIError` instance while a plain JavaScript `Error` is not. -/
def isAPIErrorInstance : SDKError → Bool
  | .jsError _ => false
  | _ => true

/-- Modelled from the spec: the `statusCode` property. `APIError` carries
its optional constructor argument; the subclasses carry the fixed status
of the condition that raises them (401, 429, 403); a plain error has
none. -/
def SDKError.statusCode : SDKError → Option Nat
  | .apiError _ sc => sc
  | .authenticationError _ => some 401
  | .rateLimitError _ _ => some 429
  | .quotaExceededError _ => some 403
  | .jsError _ => none

/-- The retry guard of `makeRequest`: an error is re-raised immediately
(never retried) when it is an `AuthenticationError`, a
`QuotaExceededError`, or an `APIError` instance whose `statusCode` is
truthy and below 500. -/
def noRetry (e : SDKError) : Bool :=
  isAuthenticationError e || isQuotaExceededError e ||
    (isAPIErrorInstance e &&
      (match e.statusCode with
       | some sc => decide (sc ≠ 0) && decide (sc < 500)
       | none => false))

/-- An HTTP response as the client observes it: status, status text,
headers, and the result of `response.json()` — a parsed `Js` value, or
the message of the thrown parse error when the body is absent or not
valid JSON. -/
structure HttpResponse where
  status : Nat
  statusText : String
  headers : List (String × String)
  jsonBody : Except String Js
deriving Repr

/-- `response.ok`: status in the 2xx success range. -/
def HttpResponse.ok (r : HttpResponse) : Bool :=
  decide (200 ≤ r.status) && decide (r.status < 300)

/-- `response.headers.get(name)`: case-insensitive header lookup,
`null` (`none`) when absent. -/
def headersGet (headers : List (String × String)) (name : String) : Option String :=
  match headers.find? (fun kv => asciiLower kv.fst = asciiLower name) with
  | some kv => some kv.snd
  | none => none

/-- One behaviour of the underlying `fetch` transport on one attempt:
either the fetch promise rejects (network failure or timeout abort) with
an error message, or it resolves to an HTTP response. -/
inductive FetchOutcome where
  | fail : String → FetchOutcome
  | resp : HttpResponse → FetchOutcome
deriving Repr

/-- A mocked transport: the fetch outcome as a function of the 0-based
attempt index. -/
def Transport : Type := Nat → FetchOutcome

/-- Message extraction of `handleErrorResponse`:
`errorData.detail || errorData.message || response.statusText`, with the
status text also used when `response.json()` throws. The source casts the
parsed body to a record of two optional string fields, so a non-string
`detail` or `message` lies outside the declared wire type; the model reads
a field only when it is a string, applying JavaScript truthiness (the
empty string falls through to the next alternative). -/
def extractErrorMessage (r : HttpResponse) : String :=
  match r.jsonBody with
  | .error _ => r.statusText
  | .ok body =>
    match body.getField "detail" with
    | .str d => if d ≠ "" then d else
      match body.getField "message" with
      | .str m => if m ≠ "" then m else r.statusText
      | _ => r.statusText
    | _ =>
      match body.getField "message" with
      | .str m => if m ≠ "" then m else r.statusText
      | _ => r.statusText

/-- The literal substring the 400 branch of `handleErrorResponse` looks
for. -/
def noStoreMsg : String :=
  "No store_id provided and no default store configured"

/-- The clarified message the 400 branch substitutes. -/
def noStoreClarifiedMsg : String :=
  "No store_id provided and no default store configured. Please provide a store_id in your request."

/-- `BrainusAI.handleErrorResponse`: map a non-success HTTP response to
the error it throws. 401 → `AuthenticationError`; 429 →
`RateLimitError` carrying `parseInt(Retry-After, 10)` when the header is
present and truthy; 400 → `APIError(400)` with a clarified message when
the extracted message contains the no-store sentence, else the raw
message; 403 → `QuotaExceededError` when the lowercased message contains
"quota", else `APIError(403)`; anything else → `APIError(status)`. -/
def handleErrorResponse (r : HttpResponse) : SDKError :=
  let errorMessage := extractErrorMessage r
  if r.status = 401 then
    .authenticationError errorMessage
  else if r.status = 429 then
    let retryAfter := headersGet r.headers "Retry-After"
    .rateLimitError errorMessage
      (match retryAfter with
       | some s => if s ≠ "" then some (parseIntJs s) else none
       | none => none)
  else if r.status = 400 then
    if jsIncludes errorMessage noStoreMsg then
      .apiError noStoreClarifiedMsg (some 400)
    else
      .apiError errorMessage (some r.status)
  else if r.status = 403 then
    if jsIncludes (jsToLower errorMessage) "quota" then
      .quotaExceededError errorMessage
    else
      .apiError errorMessage (some r.status)
  else
    .apiError errorMessage (some r.status)

/-- One iteration body of the `makeRequest` try block at a given attempt:
fetch; when the response is not ok, throw what `handleErrorResponse`
maps it to; otherwise parse the JSON body, whose parse error is also
thrown. `Except.error` is the thrown error the catch clause receives. -/
def attemptOnce (transport : Transport) (attempt : Nat) : Except SDKError Js :=
  match transport attempt with
  | .fail msg => .error (.jsError msg)
  | .resp r =>
    if ¬ r.ok then .error (handleErrorResponse r)
    else
      match r.jsonBody with
      | .ok j => .ok j
      | .error msg => .error (.jsError msg)

/-- The backoff wait of `makeRequest`:
`Math.min(1000 * Math.pow(2, attempt), 10000)` milliseconds. -/
def backoffDelay (attempt : Nat) : Nat :=
  min (1000 * 2 ^ attempt) 10000

/-- The message of the generic `APIError` thrown after the retry loop:
`Request failed after (maxRetries+1) attempts: (lastError?.message)`. -/
def finalErrorMessage (maxRetries : Nat) (lastMsg : String) : String :=
  "Request failed after " ++ toString (maxRetries + 1) ++ " attempts: " ++ lastMsg

/-- `lastError?.message`, interpolated into a template string: the message
when an error was recorded, the text "undefined" otherwise. -/
def optMessage : Option SDKError → String
  | none => "undefined"
  | some e => e.message

/-- Observable trace of one `makeRequest` invocation: its outcome, how
many transport calls it made, and the backoff waits (in milliseconds) it
slept between attempts, in order. -/
structure Trace where
  result : Except SDKError Js
  calls : Nat
  waits : List Nat
deriving Repr

/-- The retry loop of `makeRequest` from attempt `k`, with `fuel`
loop iterations still available (the loop runs while `k ≤ maxRetries`,
so `maxRetries + 1` fuel is exact) and `lastE` the last caught error.
On a caught error the guard `noRetry` decides between re-raising and
retrying; a retry sleeps `backoffDelay k` first when `k < maxRetries`.
When the loop condition fails, throw the generic final `APIError`
(which carries no status code). -/
def makeRequestAux (maxRetries : Nat) (transport : Transport) (k : Nat)
    (lastE : Option SDKError) : Nat → Trace
  | 0 =>
    { result := .error (.apiError (finalErrorMessage maxRetries (optMessage lastE)) none),
      calls := 0, waits := [] }
  | fuel + 1 =>
    if k ≤ maxRetries then
      match attemptOnce transport k with
      | .ok j => { result := .ok j, calls := 1, waits := [] }
      | .error e =>
        if noRetry e then { result := .error e, calls := 1, waits := [] }
        else
          let w := if k < maxRetries then [backoffDelay k] else []
          let rest := makeRequestAux maxRetries transport (k + 1) (some e) fuel
          { result := rest.result, calls := rest.calls + 1, waits := w ++ rest.waits }
    else
      { result := .error (.apiError (finalErrorMessage maxRetries (optMessage lastE)) none),
        calls := 0, waits := [] }

/-- The validated, defaulted state a constructed `BrainusAI` client
holds. -/
structure ClientState where
  apiKey : String
  baseUrl : String
  timeout : Nat
  maxRetries : Nat
deriving Repr, DecidableEq

/-- `BrainusAI.makeRequest`: run the retry loop from attempt 0. -/
def makeRequest (cfg : ClientState) (transport : Transport) : Trace :=
  makeRequestAux cfg.maxRetries transport 0 none (cfg.maxRetries + 1)

/-- The `BrainusAIConfig` constructor argument. `apiKey` is declared
required by the TypeScript types but the constructor re-checks it at
runtime for absence, so it is optional here; the other three fields are
optional. -/
structure BrainusAIConfig where
  apiKey : Option String
  baseUrl : Option String
  timeout : Option Nat
  maxRetries : Option Nat
deriving Repr

/-- The `BrainusAI` constructor: throw unless the key is present, truthy
and starts with the literal prefix `brainus_`; then store the key and
apply nullish-coalescing defaults for base URL, timeout and max retries.
No network activity occurs: the result is a plain record of the four
fields. -/
def mkBrainusAI (config : BrainusAIConfig) : Except String ClientState :=
  match config.apiKey with
  | none => .error "Invalid API key format. Expected format: brainus_..."
  | some k =>
    if k = "" ∨ ¬ jsStartsWith k "brainus_" then
      .error "Invalid API key format. Expected format: brainus_..."
    else
      .ok { apiKey := k,
            baseUrl := config.baseUrl.getD "https://api.brainus.lk",
            timeout := config.timeout.getD 30000,
            maxRetries := config.maxRetries.getD 3 }

/-- The `QueryRequest` argument of `query`: required query text and three
optional fields. `filters` is passed through verbatim into the body, so it
is kept as the `Js` object value the caller supplied. -/
structure QueryRequest where
  query : String
  storeId : Option String
  filters : Option Js
  model : Option String
deriving Repr

/-- The body-building prelude of `query`: start from a record holding
`query`, then insert `store_id`, `filters`, `model` in that order, each
only when the corresponding optional field is not undefined. The list
keeps the JavaScript object insertion order, which is also the
`JSON.stringify` serialization order. -/
def buildQueryBody (request : QueryRequest) : List (String × Js) :=
  [("query", Js.str request.query)] ++
    (match request.storeId with
     | some s => [("store_id", Js.str s)]
     | none => []) ++
    (match request.filters with
     | some f => [("filters", f)]
     | none => []) ++
    (match request.model with
     | some m => [("model", Js.str m)]
     | none => [])

/-- The keys of a request body record, in order. -/
def bodyKeys (body : List (String × Js)) : List String :=
  body.map Prod.fst

/-- The camelCase `Citation` record `query` builds from one raw citation
object. The source reads `document_id`, `document_name`, `chunk_text`
through an untyped cast and `metadata` directly, so an absent field stays
`undefined`; `pages` is defaulted through `c.pages || []`. -/
structure CitationOut where
  documentId : Js
  documentName : Js
  pages : Js
  metadata : Js
  chunkText : Js
deriving Repr

/-- The camelCase `QueryResponse` record `query` returns. -/
structure QueryResponseOut where
  answer : Js
  citations : List CitationOut
  hasCitations : Js
deriving Repr

/-- The element list of `response.citations || []`: the array elements
when the (truthy) value is an array, the empty list when the field is
absent or otherwise falsy. The source types the field as `Citation[]`, so
a truthy non-array value lies outside the declared wire type. -/
def citationsArray (raw : Js) : List Js :=
  match jsOr (raw.getField "citations") (Js.arr []) with
  | .arr xs => xs
  | _ => []

/-- The per-citation remapping arrow of `query`. -/
def remapCitation (c : Js) : CitationOut :=
  { documentId := c.getField "document_id",
    documentName := c.getField "document_name",
    pages := jsOr (c.getField "pages") (Js.arr []),
    metadata := c.getField "metadata",
    chunkText := c.getField "chunk_text" }

/-- The snake_case-to-camelCase remapping `query` applies to the raw JSON
response returned by `makeRequest`. -/
def remapQueryResponse (raw : Js) : QueryResponseOut :=
  { answer := raw.getField "answer",
    citations := (citationsArray raw).map remapCitation,
    hasCitations := raw.getField "has_citations" }

/-- Observable trace of one `query` invocation: the body it builds for
transmission, its outcome, and the transport-call count and backoff waits
of the underlying `makeRequest`. -/
structure QueryTrace where
  body : List (String × Js)
  result : Except SDKError QueryResponseOut
  calls : Nat
  waits : List Nat
deriving Repr

/-- `BrainusAI.query`: build the body, POST it through `makeRequest`, and
remap a successful raw response to camelCase; an error propagates
unchanged. -/
def query (cfg : ClientState) (transport : Transport) (request : QueryRequest) : QueryTrace :=
  let t := makeRequest cfg transport
  { body := buildQueryBody request,
    result := t.result.map remapQueryResponse,
    calls := t.calls,
    waits := t.waits }

/-- The camelCase `Plan` record `getPlans` builds from one raw plan
object. `allowed_models` and `features` are defaulted through `|| []`
and `|| ` the empty object; every other field is read directly, absent
ones staying `undefined`. -/
structure PlanOut where
  id : Js
  name : Js
  description : Js
  rateLimitPerMinute : Js
  rateLimitPerDay : Js
  monthlyQuota : Js
  priceLkr : Js
  allowedModels : Js
  features : Js
  isActive : Js
deriving Repr

/-- The per-plan remapping arrow of `getPlans`. -/
def remapPlan (p : Js) : PlanOut :=
  { id := p.getField "id",
    name := p.getField "name",
    description := p.getField "description",
    rateLimitPerMinute := p.getField "rate_limit_per_minute",
    rateLimitPerDay := p.getField "rate_limit_per_day",
    monthlyQuota := p.getField "monthly_quota",
    priceLkr := p.getField "price_lkr",
    allowedModels := jsOr (p.getField "allowed_models") (Js.arr []),
    features := jsOr (p.getField "features") (Js.obj []),
    isActive := p.getField "is_active" }

/-- `response.plans.map(...)`: the source reads the `plans` field with no
default, so when the field is `undefined` or `null` the `.map` call
throws a `TypeError` (modelled as `none`); when it is an array the mapped
plan list is returned. A truthy non-array value lies outside the declared
wire type. -/
def mapPlansField (raw : Js) : Option (List PlanOut) :=
  match raw.getField "plans" with
  | .arr xs => some (xs.map remapPlan)
  | _ => none

/-- Observable trace of one `getPlans` invocation. -/
structure PlansTrace where
  result : Except SDKError (List PlanOut)
  calls : Nat
  waits : List Nat
deriving Repr

/-- `BrainusAI.getPlans`: GET through `makeRequest`, then remap
`response.plans`; the `TypeError` thrown on a missing `plans` field
escapes `getPlans` uncaught. -/
def getPlans (cfg : ClientState) (transport : Transport) : PlansTrace :=
  let t := makeRequest cfg transport
  { result :=
      match t.result with
      | .error e => .error e
      | .ok raw =>
        match mapPlansField raw with
        | some plans => .ok plans
        | none => .error (.jsError "Cannot read properties of undefined (reading map)"),
    calls := t.calls,
    waits := t.waits }

/-- Attempt `j` of the transport makes the try block throw an error the
retry guard lets through to another attempt. -/
def retryableFailure (transport : Transport) (j : Nat) : Prop :=
  ∃ e, attemptOnce transport j = .error e ∧ noRetry e = false

theorem noRetry_jsError (msg : String) : noRetry (SDKError.jsError msg) = false := rfl

theorem ok_false_of_ge_500 (r : HttpResponse) (h : 500 ≤ r.status) : r.ok = false := by
  simp only [HttpResponse.ok, Bool.and_eq_false_iff, decide_eq_false_iff_not, not_le, not_lt]
  omega

theorem handleErrorResponse_5xx (r : HttpResponse) (h5 : 500 ≤ r.status) :
    handleErrorResponse r = .apiError (extractErrorMessage r) (some r.status) := by
  unfold handleErrorResponse
  rw [if_neg (by omega), if_neg (by omega), if_neg (by omega), if_neg (by omega)]

theorem noRetry_apiError_of_ge_500 (msg : String) (sc : Nat) (h : 500 ≤ sc) :
    noRetry (SDKError.apiError msg (some sc)) = false := by
  simp only [noRetry, isAuthenticationError, isQuotaExceededError, isAPIErrorInstance,
    SDKError.statusCode, Bool.false_or, Bool.true_and, Bool.and_eq_false_iff,
    decide_eq_false_iff_not, not_lt]
  omega

theorem retryable_of_5xx_or_network (tr : Transport) (j : Nat)
    (h : (∃ msg, tr j = .fail msg) ∨
         ∃ r, tr j = .resp r ∧ 500 ≤ r.status ∧ r.status ≤ 599) :
    retryableFailure tr j := by
  rcases h with ⟨msg, hmsg⟩ | ⟨r, hr, h5, _⟩
  · exact ⟨.jsError msg, by simp [attemptOnce, hmsg], rfl⟩
  · refine ⟨.apiError (extractErrorMessage r) (some r.status), ?_, ?_⟩
    · simp [attemptOnce, hr, ok_false_of_ge_500 r h5, handleErrorResponse_5xx r h5]
    · exact noRetry_apiError_of_ge_500 _ _ h5

/-- Master lemma for runs that stop at attempt `k`: when every attempt
from `s` up to (excluding) `k` fails retryably and attempt `k` either
succeeds or throws an error the guard re-raises, the loop started at `s`
returns attempt `k`'s outcome after `k - s + 1` transport calls, having
slept the backoff delays of attempts `s .. k-1`. -/
theorem makeRequestAux_stop (m : Nat) (tr : Transport) (st : Except SDKError Js) (k : Nat)
    (hstop : ∀ e, st = .error e → noRetry e = true) :
    ∀ fuel s lastE, s + fuel = m + 1 → s ≤ k → k ≤ m →
      (∀ j, s ≤ j → j < k → retryableFailure tr j) →
      attemptOnce tr k = st →
      makeRequestAux m tr s lastE fuel =
        { result := st, calls := k - s + 1,
          waits := (List.range' s (k - s)).map backoffDelay } := by
  intro fuel
  induction fuel with
  | zero => intro s lastE hf hsk hkm _ _; omega
  | succ f ih =>
    intro s lastE hf hsk hkm hpre hk
    rcases Nat.eq_or_lt_of_le hsk with heq | hlt
    · subst heq
      rw [makeRequestAux, if_pos hkm, hk]
      cases st with
      | ok v => simp
      | error e =>
        dsimp only
        rw [hstop e rfl]
        simp
    · obtain ⟨e, he, hnr⟩ := hpre s (Nat.le_refl s) hlt
      rw [makeRequestAux, if_pos (by omega : s ≤ m), he]
      dsimp only
      rw [hnr]
      have hrest := ih (s + 1) (some e) (by omega) hlt hkm
        (fun j hj1 hj2 => hpre j (by omega) hj2) hk
      rw [hrest]
      simp only [Bool.false_eq_true, if_false, if_pos (show s < m by omega)]
      obtain ⟨d, hd⟩ : ∃ d, k - s = d + 1 := ⟨k - s - 1, by omega⟩
      rw [hd]
      have hd2 : k - (s + 1) = d := by omega
      rw [hd2, List.range'_succ]
      simp

/-- Master lemma for runs in which every attempt fails retryably: the
loop started at `s` exhausts its fuel and throws the generic final
`APIError` built from the last attempt's error message, having slept the
backoff delays of attempts `s .. m-1`. -/
theorem makeRequestAux_allFail (m : Nat) (tr : Transport)
    (h : ∀ j, retryableFailure tr j) :
    ∀ fuel s lastE, s + fuel = m + 1 → s ≤ m →
      ∃ e, attemptOnce tr m = .error e ∧
        makeRequestAux m tr s lastE fuel =
          { result := .error (.apiError (finalErrorMessage m e.message) none),
            calls := fuel,
            waits := (List.range' s (m - s)).map backoffDelay } := by
  intro fuel
  induction fuel with
  | zero => intro s lastE hf hsm; omega
  | succ f ih =>
    intro s lastE hf hsm
    obtain ⟨e, he, hnr⟩ := h s
    rcases Nat.eq_or_lt_of_le hsm with heq | hlt
    · subst heq
      have hf0 : f = 0 := by omega
      subst hf0
      refine ⟨e, he, ?_⟩
      rw [makeRequestAux, if_pos (Nat.le_refl s), he]
      dsimp only
      rw [hnr]
      simp [makeRequestAux, optMessage, Nat.lt_irrefl]
    · obtain ⟨e2, he2, hrest⟩ := ih (s + 1) (some e) (by omega) (by omega)
      refine ⟨e2, he2, ?_⟩
      rw [makeRequestAux, if_pos (by omega : s ≤ m), he]
      dsimp only
      rw [hnr, hrest]
      simp only [Bool.false_eq_true, if_false, if_pos hlt]
      obtain ⟨d, hd⟩ : ∃ d, m - s = d + 1 := ⟨m - s - 1, by omega⟩
      rw [hd]
      have hd2 : m - (s + 1) = d := by omega
      rw [hd2, List.range'_succ]
      simp

theorem noRetry_true_of_claimed_kind (e : SDKError)
    (h : isAuthenticationError e = true ∨ isQuotaExceededError e = true ∨
      (isAPIErrorInstance e = true ∧ ∃ sc, e.statusCode = some sc ∧ 0 < sc ∧ sc < 500)) :
    noRetry e = true := by
  rcases h with h | h | ⟨hi, sc, hsc, h0, h5⟩
  · simp [noRetry, h]
  · simp [noRetry, h]
  · have hne : sc ≠ 0 := by omega
    simp [noRetry, hi, hsc, hne, h5]

theorem query_result_error (cfg : ClientState) (transport : Transport)
    (request : QueryRequest) (e : SDKError)
    (h : (makeRequest cfg transport).result = .error e) :
    (query cfg transport request).result = .error e := by
  simp [query, h, Except.map]

/-- Claim C1: with a transport that fails with a retryable error (network
failure or HTTP 5xx) on every attempt, `makeRequest` makes exactly
`maxRetries + 1` transport calls and then throws a generic `APIError`
whose message contains the attempt count `maxRetries + 1` and the last
underlying error's message. -/
theorem claim_C1 (cfg : ClientState) (transport : Transport)
    (h : ∀ j, (∃ msg, transport j = .fail msg) ∨
         ∃ r, transport j = .resp r ∧ 500 ≤ r.status ∧ r.status ≤ 599) :
    (makeRequest cfg transport).calls = cfg.maxRetries + 1 ∧
    ∃ e, attemptOnce transport cfg.maxRetries = Except.error e ∧
      (makeRequest cfg transport).result =
        Except.error (.apiError (finalErrorMessage cfg.maxRetries e.message) none) ∧
      containsSubstring (finalErrorMessage cfg.maxRetries e.message)
        (toString (cfg.maxRetries + 1)) ∧
      containsSubstring (finalErrorMessage cfg.maxRetries e.message) e.message := by
  have hretry : ∀ j, retryableFailure transport j :=
    fun j => retryable_of_5xx_or_network transport j (h j)
  obtain ⟨e, he, hrun⟩ := makeRequestAux_allFail cfg.maxRetries transport hretry
    (cfg.maxRetries + 1) 0 none (by omega) (by omega)
  unfold makeRequest
  rw [hrun]
  refine ⟨rfl, e, he, rfl, ?_, ?_⟩
  · exact ⟨"Request failed after ", " attempts: " ++ e.message,
      by simp [finalErrorMessage, String.append_assoc]⟩
  · refine ⟨"Request failed after " ++ toString (cfg.maxRetries + 1) ++ " attempts: ", "", ?_⟩
    simp [finalErrorMessage, String.append_assoc, String.append_empty]

/-- Claim C2: an error that is an `AuthenticationError`, a
`QuotaExceededError`, or an `APIError` carrying a status code (truthy,
i.e. nonzero) below 500 is re-raised immediately with no further
transport calls, at whatever attempt it occurs; in particular a transport
answering HTTP 401 makes `query` raise `AuthenticationError` after
exactly one transport call. -/
theorem claim_C2 :
    (∀ (cfg : ClientState) (transport : Transport) (k : Nat) (e : SDKError),
      k ≤ cfg.maxRetries →
      (∀ j, j < k → retryableFailure transport j) →
      attemptOnce transport k = .error e →
      (isAuthenticationError e = true ∨ isQuotaExceededError e = true ∨
        (isAPIErrorInstance e = true ∧ ∃ sc, e.statusCode = some sc ∧ 0 < sc ∧ sc < 500)) →
      (makeRequest cfg transport).result = Except.error e ∧
        (makeRequest cfg transport).calls = k + 1) ∧
    (∀ (cfg : ClientState) (transport : Transport) (request : QueryRequest) (r : HttpResponse),
      transport 0 = .resp r → r.status = 401 →
      (query cfg transport request).result =
          Except.error (.authenticationError (extractErrorMessage r)) ∧
        (query cfg transport request).calls = 1) := by
  constructor
  · intro cfg transport k e hk hpre he hkind
    have hrun := makeRequestAux_stop cfg.maxRetries transport (.error e) k
      (fun e2 h2 => by cases h2; exact noRetry_true_of_claimed_kind e hkind)
      (cfg.maxRetries + 1) 0 none (by omega) (by omega) hk
      (fun j _ hj => hpre j hj) he
    unfold makeRequest
    rw [hrun]
    exact ⟨rfl, rfl⟩
  · intro cfg transport request r hr h401
    have hok : r.ok = false := by
      simp only [HttpResponse.ok, h401]
      decide
    have hmap : handleErrorResponse r = .authenticationError (extractErrorMessage r) := by
      unfold handleErrorResponse
      rw [if_pos h401]
    have hatt : attemptOnce transport 0 = .error (.authenticationError (extractErrorMessage r)) := by
      simp [attemptOnce, hr, hok, hmap]
    have hrun := makeRequestAux_stop cfg.maxRetries transport
      (.error (.authenticationError (extractErrorMessage r))) 0
      (fun e2 h2 => by cases h2; rfl)
      (cfg.maxRetries + 1) 0 none (by omega) (by omega) (by omega)
      (fun j hj1 hj2 => by omega) hatt
    constructor
    · exact query_result_error cfg transport request _ (by unfold makeRequest; rw [hrun])
    · show (makeRequest cfg transport).calls = 1
      unfold makeRequest
      rw [hrun]

theorem handleErrorResponse_429 (r : HttpResponse) (h : r.status = 429) :
    handleErrorResponse r = .rateLimitError (extractErrorMessage r)
      (match headersGet r.headers "Retry-After" with
       | some s => if s ≠ "" then some (parseIntJs s) else none
       | none => none) := by
  unfold handleErrorResponse
  rw [if_neg (by omega), if_pos h]

theorem ok_false_of_429 (r : HttpResponse) (h : r.status = 429) : r.ok = false := by
  simp only [HttpResponse.ok, h]
  decide

/-- Claim C3: a transport answering HTTP 429 with header `Retry-After: 5`
makes `query` raise a `RateLimitError` carrying retry-after 5 after
exactly one transport call; and in general a 429 response produces an
error the retry guard re-raises immediately, so a 429 reached at any
attempt ends the call with exactly that many transport calls. -/
theorem claim_C3 :
    (∀ (cfg : ClientState) (transport : Transport) (request : QueryRequest) (r : HttpResponse),
      transport 0 = .resp r → r.status = 429 →
      headersGet r.headers "Retry-After" = some "5" →
      (query cfg transport request).result =
          Except.error (.rateLimitError (extractErrorMessage r) (some (.int 5))) ∧
        (query cfg transport request).calls = 1) ∧
    (∀ r : HttpResponse, r.status = 429 → noRetry (handleErrorResponse r) = true) ∧
    (∀ (cfg : ClientState) (transport : Transport) (k : Nat) (r : HttpResponse),
      k ≤ cfg.maxRetries →
      (∀ j, j < k → retryableFailure transport j) →
      transport k = .resp r → r.status = 429 →
      (makeRequest cfg transport).calls = k + 1) := by
  refine ⟨?_, ?_, ?_⟩
  · intro cfg transport request r hr h429 hheader
    have hmap : handleErrorResponse r = .rateLimitError (extractErrorMessage r) (some (.int 5)) := by
      rw [handleErrorResponse_429 r h429, hheader]
      dsimp only
      rw [if_pos (by decide : ("5" : String) ≠ "")]
      rfl
    have hatt : attemptOnce transport 0 =
        .error (.rateLimitError (extractErrorMessage r) (some (.int 5))) := by
      simp [attemptOnce, hr, ok_false_of_429 r h429, hmap]
    have hrun := makeRequestAux_stop cfg.maxRetries transport
      (.error (.rateLimitError (extractErrorMessage r) (some (.int 5)))) 0
      (fun e2 h2 => by cases h2; rfl)
      (cfg.maxRetries + 1) 0 none (by omega) (by omega) (by omega)
      (fun j hj1 hj2 => by omega) hatt
    constructor
    · exact query_result_error cfg transport request _ (by unfold makeRequest; rw [hrun])
    · show (makeRequest cfg transport).calls = 1
      unfold makeRequest
      rw [hrun]
  · intro r h429
    rw [handleErrorResponse_429 r h429]
    rfl
  · intro cfg transport k r hk hpre hr h429
    have hatt : attemptOnce transport k = .error (handleErrorResponse r) := by
      simp [attemptOnce, hr, ok_false_of_429 r h429]
    have hnr : noRetry (handleErrorResponse r) = true := by
      rw [handleErrorResponse_429 r h429]
      rfl
    have hrun := makeRequestAux_stop cfg.maxRetries transport
      (.error (handleErrorResponse r)) k
      (fun e2 h2 => by cases h2; exact hnr)
      (cfg.maxRetries + 1) 0 none (by omega) (by omega) hk
      (fun j _ hj => hpre j hj) hatt
    unfold makeRequest
    rw [hrun]
    rfl

/-- Claim C4: for a transport that fails retryably on the first `n`
attempts (with `n ≤ maxRetries`) and succeeds on attempt `n + 1`, the
call succeeds after exactly `n + 1` transport calls, with the backoff
waits before attempts `1 .. n` being exactly
`min(1000 * 2 ^ k, 10000)` milliseconds for `k = 0 .. n-1`, and no wait
after the final attempt (the recorded wait list has length `n`). -/
theorem claim_C4 (cfg : ClientState) (transport : Transport) (n : Nat) (v : Js)
    (hn : n ≤ cfg.maxRetries)
    (hpre : ∀ j, j < n → retryableFailure transport j)
    (hok : attemptOnce transport n = .ok v) :
    (makeRequest cfg transport).result = Except.ok v ∧
    (makeRequest cfg transport).calls = n + 1 ∧
    (makeRequest cfg transport).waits =
      (List.range n).map (fun k => min (1000 * 2 ^ k) 10000) := by
  have hrun := makeRequestAux_stop cfg.maxRetries transport (.ok v) n
    (fun e2 h2 => by cases h2)
    (cfg.maxRetries + 1) 0 none (by omega) (by omega) hn
    (fun j _ hj => hpre j hj) hok
  unfold makeRequest
  rw [hrun]
  refine ⟨rfl, rfl, ?_⟩
  simp only [Nat.sub_zero, ← List.range_eq_range']
  rfl

/-- Claim C5: the error mapping always raises (a non-ok response always
makes the attempt throw exactly the mapped error, so the mapping never
returns a value to the success path), maps each status as the table in
the spec prescribes (401, 429, the two 400 cases, the two 403 cases, and
the catch-all), and extracts the message preferring the JSON body's
`detail` field, then its `message` field, then the response's status
text when the body is absent or unparsable as JSON. -/
theorem claim_C5 (r : HttpResponse) :
    (∀ (tr : Transport) (k : Nat), tr k = .resp r → r.ok = false →
      attemptOnce tr k = Except.error (handleErrorResponse r)) ∧
    (r.status = 401 →
      handleErrorResponse r = .authenticationError (extractErrorMessage r)) ∧
    (r.status = 429 →
      handleErrorResponse r = .rateLimitError (extractErrorMessage r)
        (match headersGet r.headers "Retry-After" with
         | some s => if s ≠ "" then some (parseIntJs s) else none
         | none => none)) ∧
    (r.status = 400 → jsIncludes (extractErrorMessage r) noStoreMsg = true →
      handleErrorResponse r = .apiError noStoreClarifiedMsg (some 400)) ∧
    (r.status = 400 → jsIncludes (extractErrorMessage r) noStoreMsg = false →
      handleErrorResponse r = .apiError (extractErrorMessage r) (some 400)) ∧
    (r.status = 403 → jsIncludes (jsToLower (extractErrorMessage r)) "quota" = true →
      handleErrorResponse r = .quotaExceededError (extractErrorMessage r)) ∧
    (r.status = 403 → jsIncludes (jsToLower (extractErrorMessage r)) "quota" = false →
      handleErrorResponse r = .apiError (extractErrorMessage r) (some 403)) ∧
    (r.status ≠ 401 → r.status ≠ 429 → r.status ≠ 400 → r.status ≠ 403 →
      handleErrorResponse r = .apiError (extractErrorMessage r) (some r.status)) ∧
    (∀ pe, r.jsonBody = .error pe → extractErrorMessage r = r.statusText) ∧
    (∀ body d, r.jsonBody = .ok body → body.getField "detail" = .str d → d ≠ "" →
      extractErrorMessage r = d) ∧
    (∀ body m, r.jsonBody = .ok body → body.getField "detail" = .undefined →
      body.getField "message" = .str m → m ≠ "" → extractErrorMessage r = m) ∧
    (∀ body, r.jsonBody = .ok body → body.getField "detail" = .undefined →
      body.getField "message" = .undefined → extractErrorMessage r = r.statusText) := by
  refine ⟨?_, ?_, ?_, ?_, ?_, ?_, ?_, ?_, ?_, ?_, ?_, ?_⟩
  · intro tr k hr hok
    simp [attemptOnce, hr, hok]
  · intro h
    unfold handleErrorResponse
    rw [if_pos h]
  · exact handleErrorResponse_429 r
  · intro h hinc
    unfold handleErrorResponse
    rw [if_neg (by omega), if_neg (by omega), if_pos h, if_pos hinc]
  · intro h hinc
    unfold handleErrorResponse
    rw [if_neg (by omega), if_neg (by omega), if_pos h,
      if_neg (by rw [hinc]; exact Bool.false_ne_true), h]
  · intro h hinc
    unfold handleErrorResponse
    rw [if_neg (by omega), if_neg (by omega), if_neg (by omega), if_pos h, if_pos hinc]
  · intro h hinc
    unfold handleErrorResponse
    rw [if_neg (by omega), if_neg (by omega), if_neg (by omega), if_pos h,
      if_neg (by rw [hinc]; exact Bool.false_ne_true), h]
  · intro h1 h2 h3 h4
    unfold handleErrorResponse
    rw [if_neg h1, if_neg h2, if_neg h3, if_neg h4]
  · intro pe hpe
    unfold extractErrorMessage
    rw [hpe]
  · intro body d hbody hd hne
    unfold extractErrorMessage
    rw [hbody]
    dsimp only
    rw [hd]
    dsimp only
    rw [if_pos hne]
  · intro body m hbody hd hm hne
    unfold extractErrorMessage
    rw [hbody]
    dsimp only
    rw [hd]
    dsimp only
    rw [hm]
    dsimp only
    rw [if_pos hne]
  · intro body hbody hd hm
    unfold extractErrorMessage
    rw [hbody]
    dsimp only
    rw [hd]
    dsimp only
    rw [hm]

theorem jsStartsWith_ne_empty (k : String) (h : jsStartsWith k "brainus_" = true) :
    k ≠ "" := by
  intro hk
  subst hk
  exact absurd h (by decide)

/-- Claim C6: construction with a missing API key or one not starting
with the literal prefix `brainus_` always throws the construction error;
construction with a valid-prefix key and no other fields succeeds and
yields base URL `https://api.brainus.lk`, timeout 30000 ms and max
retries 3 (construction is a pure record build: no network activity). -/
theorem claim_C6 :
    (∀ config : BrainusAIConfig,
      (config.apiKey = none ∨
        ∃ k, config.apiKey = some k ∧ jsStartsWith k "brainus_" = false) →
      mkBrainusAI config = .error "Invalid API key format. Expected format: brainus_...") ∧
    (∀ k, jsStartsWith k "brainus_" = true →
      mkBrainusAI { apiKey := some k, baseUrl := none, timeout := none, maxRetries := none } =
        .ok { apiKey := k, baseUrl := "https://api.brainus.lk",
              timeout := 30000, maxRetries := 3 }) := by
  constructor
  · intro config h
    rcases h with hnone | ⟨k, hk, hpre⟩
    · unfold mkBrainusAI
      rw [hnone]
    · unfold mkBrainusAI
      rw [hk]
      dsimp only
      rw [if_pos (Or.inr (by rw [hpre]; exact Bool.false_ne_true))]
  · intro k h
    unfold mkBrainusAI
    dsimp only
    rw [if_neg ?_]
    · rfl
    · rintro (h1 | h2)
      · exact jsStartsWith_ne_empty k h h1
      · exact h2 h

/-- Claim C7: the transmitted query body always contains the key `query`
(holding the caller's query text) and contains the keys `store_id`,
`filters`, `model` exactly when the corresponding optional field was
provided; an omitted optional field does not appear as a key at all. -/
theorem claim_C7 (request : QueryRequest) :
    ("query" ∈ bodyKeys (buildQueryBody request)) ∧
    ((buildQueryBody request).lookup "query" = some (Js.str request.query)) ∧
    ("store_id" ∈ bodyKeys (buildQueryBody request) ↔ request.storeId ≠ none) ∧
    ("filters" ∈ bodyKeys (buildQueryBody request) ↔ request.filters ≠ none) ∧
    ("model" ∈ bodyKeys (buildQueryBody request) ↔ request.model ≠ none) := by
  obtain ⟨q, sid, fil, mo⟩ := request
  cases sid <;> cases fil <;> cases mo <;>
    simp [buildQueryBody, bodyKeys, List.lookup]

/-- A client as constructed from a valid key and an otherwise empty
configuration: all defaults in force. -/
def exampleClient : ClientState :=
  { apiKey := "brainus_key", baseUrl := "https://api.brainus.lk",
    timeout := 30000, maxRetries := 3 }

/-- An HTTP 200 response with the given JSON body. -/
def okResp (body : Js) : HttpResponse :=
  { status := 200, statusText := "OK", headers := [], jsonBody := .ok body }

/-- A transport whose every attempt succeeds with HTTP 200 and the given
JSON body. -/
def okTransport (body : Js) : Transport :=
  fun _ => .resp (okResp body)

/-- A query request providing only the required query text. -/
def exampleQueryRequest : QueryRequest :=
  { query := "q", storeId := none, filters := none, model := none }

/-- The raw wire response of the round-trip test in the spec. -/
def rawQueryResponseExample : Js :=
  Js.obj
    [("answer", Js.str "x"),
     ("citations", Js.arr
       [Js.obj
         [("document_id", Js.str "d1"),
          ("document_name", Js.str "Doc"),
          ("pages", Js.arr [Js.num 1, Js.num 2])]]),
     ("has_citations", Js.bool true)]

/-- Claim C8: `query` remaps the raw snake_case response to the camelCase
shape — the concrete raw response of the spec's round-trip test yields
the documented camelCase record with `metadata` left undefined; a raw
response with no `citations` key yields an empty citations list rather
than an error; and a citation with an absent `pages` field gets an empty
pages array. -/
theorem claim_C8 :
    ((query exampleClient (okTransport rawQueryResponseExample) exampleQueryRequest).result =
      Except.ok
        { answer := Js.str "x",
          citations :=
            [{ documentId := Js.str "d1", documentName := Js.str "Doc",
               pages := Js.arr [Js.num 1, Js.num 2], metadata := Js.undefined,
               chunkText := Js.undefined }],
          hasCitations := Js.bool true }) ∧
    (∀ raw : Js, raw.getField "citations" = Js.undefined →
      (remapQueryResponse raw).citations = []) ∧
    (∀ c : Js, c.getField "pages" = Js.undefined →
      (remapCitation c).pages = Js.arr []) := by
  refine ⟨rfl, ?_, ?_⟩
  · intro raw h
    simp [remapQueryResponse, citationsArray, jsOr, h, Js.truthy]
  · intro c h
    simp [remapCitation, jsOr, h, Js.truthy]

/-- Claim C9: a successful (2xx) plans response whose JSON body lacks the
`plans` key makes `getPlans` fail (the field is read with no default)
rather than return an empty list, even though each plan record's absent
`allowed_models` and `features` fields are defaulted to an empty array
and an empty object. -/
theorem claim_C9 :
    (∀ (cfg : ClientState) (transport : Transport) (r : HttpResponse) (body : Js),
      transport 0 = .resp r → r.ok = true → r.jsonBody = .ok body →
      body.getField "plans" = Js.undefined →
      (∃ e, (getPlans cfg transport).result = Except.error e) ∧
        ∀ plans, (getPlans cfg transport).result ≠ Except.ok plans) ∧
    (∀ p : Js, p.getField "allowed_models" = Js.undefined →
      (remapPlan p).allowedModels = Js.arr []) ∧
    (∀ p : Js, p.getField "features" = Js.undefined →
      (remapPlan p).features = Js.obj []) := by
  refine ⟨?_, ?_, ?_⟩
  · intro cfg transport r body hr hok hbody hplans
    have hatt : attemptOnce transport 0 = .ok body := by
      simp [attemptOnce, hr, hok, hbody]
    have hrun := makeRequestAux_stop cfg.maxRetries transport (.ok body) 0
      (fun e2 h2 => by cases h2)
      (cfg.maxRetries + 1) 0 none (by omega) (by omega) (by omega)
      (fun j hj1 hj2 => by omega) hatt
    have hres : (getPlans cfg transport).result =
        Except.error (.jsError "Cannot read properties of undefined (reading map)") := by
      unfold getPlans makeRequest
      rw [hrun]
      dsimp only
      rw [mapPlansField, hplans]
    refine ⟨⟨_, hres⟩, fun plans hcontra => ?_⟩
    rw [hres] at hcontra
    exact Except.noConfusion hcontra
  · intro p h
    simp [remapPlan, jsOr, h, Js.truthy]
  · intro p h
    simp [remapPlan, jsOr, h, Js.truthy]

/-- Claim C10: a 2xx response whose body fails to parse as JSON makes the
attempt throw a plain error that the retry guard does not re-raise, so it
is retried with backoff; when every attempt fails this way the call ends
with the generic final `APIError`, which carries no status code, built
from the parse error's message. -/
theorem claim_C10 :
    (∀ (tr : Transport) (k : Nat) (r : HttpResponse) (pe : String),
      tr k = .resp r → r.ok = true → r.jsonBody = .error pe →
      attemptOnce tr k = Except.error (.jsError pe) ∧
        noRetry (.jsError pe) = false) ∧
    (∀ (cfg : ClientState) (tr : Transport),
      (∀ j, ∃ r pe, tr j = .resp r ∧ r.ok = true ∧ r.jsonBody = .error pe) →
      (makeRequest cfg tr).calls = cfg.maxRetries + 1 ∧
      (makeRequest cfg tr).waits =
        (List.range cfg.maxRetries).map backoffDelay ∧
      ∃ pe, (makeRequest cfg tr).result =
        Except.error (.apiError (finalErrorMessage cfg.maxRetries pe) none)) := by
  constructor
  · intro tr k r pe hr hok hpe
    refine ⟨?_, rfl⟩
    simp [attemptOnce, hr, hok, hpe]
  · intro cfg tr h
    have hretry : ∀ j, retryableFailure tr j := by
      intro j
      obtain ⟨r, pe, hr, hok, hpe⟩ := h j
      exact ⟨.jsError pe, by simp [attemptOnce, hr, hok, hpe], rfl⟩
    obtain ⟨e, he, hrun⟩ := makeRequestAux_allFail cfg.maxRetries tr hretry
      (cfg.maxRetries + 1) 0 none (by omega) (by omega)
    unfold makeRequest
    rw [hrun]
    refine ⟨rfl, ?_, ⟨e.message, rfl⟩⟩
    simp only [Nat.sub_zero, ← List.range_eq_range']

/-- A 503 response whose body is not JSON. -/
def resp503 : HttpResponse :=
  { status := 503, statusText := "Service Unavailable", headers := [],
    jsonBody := .error "Unexpected token" }

/-- A transport answering 503 on every attempt. -/
def transport503 : Transport := fun _ => .resp resp503

theorem claim_C1_witness :
    (makeRequest exampleClient transport503).calls = exampleClient.maxRetries + 1 ∧
    ∃ e, attemptOnce transport503 exampleClient.maxRetries = Except.error e ∧
      (makeRequest exampleClient transport503).result =
        Except.error (.apiError (finalErrorMessage exampleClient.maxRetries e.message) none) ∧
      containsSubstring (finalErrorMessage exampleClient.maxRetries e.message)
        (toString (exampleClient.maxRetries + 1)) ∧
      containsSubstring (finalErrorMessage exampleClient.maxRetries e.message) e.message :=
  claim_C1 exampleClient transport503
    (fun _ => Or.inr ⟨resp503, rfl, by decide, by decide⟩)

/-- A 401 response with a structured `detail` message. -/
def resp401 : HttpResponse :=
  { status := 401, statusText := "Unauthorized", headers := [],
    jsonBody := .ok (Js.obj [("detail", Js.str "bad key")]) }

/-- A transport answering 401 on every attempt. -/
def transport401 : Transport := fun _ => .resp resp401

theorem claim_C2_witness :
    (query exampleClient transport401 exampleQueryRequest).result =
        Except.error (.authenticationError (extractErrorMessage resp401)) ∧
      (query exampleClient transport401 exampleQueryRequest).calls = 1 :=
  claim_C2.2 exampleClient transport401 exampleQueryRequest resp401 rfl rfl

/-- A 429 response with header `Retry-After: 5`. -/
def resp429 : HttpResponse :=
  { status := 429, statusText := "Too Many Requests",
    headers := [("Retry-After", "5")], jsonBody := .ok (Js.obj []) }

/-- A transport answering 429 on every attempt. -/
def transport429 : Transport := fun _ => .resp resp429

theorem claim_C3_witness :
    (query exampleClient transport429 exampleQueryRequest).result =
        Except.error (.rateLimitError (extractErrorMessage resp429) (some (.int 5))) ∧
      (query exampleClient transport429 exampleQueryRequest).calls = 1 :=
  claim_C3.1 exampleClient transport429 exampleQueryRequest resp429 rfl rfl (by decide)

/-- A transport that fails with a network error on attempts 0 and 1 and
succeeds from attempt 2 on. -/
def flakyTransport : Transport :=
  fun k =>
    if k < 2 then .fail "network error"
    else .resp { status := 200, statusText := "OK", headers := [], jsonBody := .ok (Js.obj []) }

theorem claim_C4_witness :
    (makeRequest exampleClient flakyTransport).result = Except.ok (Js.obj []) ∧
    (makeRequest exampleClient flakyTransport).calls = 2 + 1 ∧
    (makeRequest exampleClient flakyTransport).waits =
      (List.range 2).map (fun k => min (1000 * 2 ^ k) 10000) :=
  claim_C4 exampleClient flakyTransport 2 (Js.obj []) (by decide)
    (fun j hj => ⟨.jsError "network error", by simp [attemptOnce, flakyTransport, hj], rfl⟩)
    rfl

theorem claim_C5_witness :
    handleErrorResponse resp401 = .authenticationError (extractErrorMessage resp401) ∧
    extractErrorMessage resp401 = "bad key" := by
  obtain ⟨-, h401, -, -, -, -, -, -, -, hdetail, -, -⟩ := claim_C5 resp401
  exact ⟨h401 rfl,
    hdetail (Js.obj [("detail", Js.str "bad key")]) "bad key" rfl rfl (by decide)⟩

theorem claim_C6_witness :
    mkBrainusAI
        { apiKey := some "sk_live_abc", baseUrl := none, timeout := none, maxRetries := none } =
      .error "Invalid API key format. Expected format: brainus_..." ∧
    mkBrainusAI
        { apiKey := some "brainus_abc", baseUrl := none, timeout := none, maxRetries := none } =
      .ok { apiKey := "brainus_abc", baseUrl := "https://api.brainus.lk",
            timeout := 30000, maxRetries := 3 } :=
  ⟨claim_C6.1 _ (Or.inr ⟨"sk_live_abc", rfl, by decide⟩),
   claim_C6.2 "brainus_abc" (by decide)⟩

/-- A query request providing `storeId` and `filters` but not `model`. -/
def exampleQueryRequestFull : QueryRequest :=
  { query := "q2", storeId := some "s1",
    filters := some (Js.obj [("subject", Js.str "science")]), model := none }

theorem claim_C7_witness :
    ("query" ∈ bodyKeys (buildQueryBody exampleQueryRequestFull)) ∧
    ((buildQueryBody exampleQueryRequestFull).lookup "query" =
      some (Js.str exampleQueryRequestFull.query)) ∧
    ("store_id" ∈ bodyKeys (buildQueryBody exampleQueryRequestFull) ↔
      exampleQueryRequestFull.storeId ≠ none) ∧
    ("filters" ∈ bodyKeys (buildQueryBody exampleQueryRequestFull) ↔
      exampleQueryRequestFull.filters ≠ none) ∧
    ("model" ∈ bodyKeys (buildQueryBody exampleQueryRequestFull) ↔
      exampleQueryRequestFull.model ≠ none) :=
  claim_C7 exampleQueryRequestFull

theorem claim_C8_witness :
    (remapQueryResponse (Js.obj [("answer", Js.str "y")])).citations = [] ∧
    (remapCitation (Js.obj [("document_id", Js.str "d2")])).pages = Js.arr [] :=
  ⟨claim_C8.2.1 (Js.obj [("answer", Js.str "y")]) rfl,
   claim_C8.2.2 (Js.obj [("document_id", Js.str "d2")]) rfl⟩

/-- A 2xx plans body with no `plans` key. -/
def plansBodyNoPlans : Js := Js.obj [("detail", Js.str "oops")]

theorem claim_C9_witness :
    ((∃ e, (getPlans exampleClient (okTransport plansBodyNoPlans)).result = Except.error e) ∧
      ∀ plans, (getPlans exampleClient (okTransport plansBodyNoPlans)).result ≠
        Except.ok plans) ∧
    (remapPlan (Js.obj [("id", Js.str "p1")])).allowedModels = Js.arr [] :=
  ⟨claim_C9.1 exampleClient (okTransport plansBodyNoPlans) (okResp plansBodyNoPlans)
      plansBodyNoPlans rfl rfl rfl rfl,
   claim_C9.2.1 (Js.obj [("id", Js.str "p1")]) rfl⟩

/-- A 2xx response whose body is not valid JSON. -/
def badJsonResp : HttpResponse :=
  { status := 200, statusText := "OK", headers := [],
    jsonBody := .error "Unexpected end of JSON input" }

/-- A transport whose every attempt yields 2xx with an unparsable body. -/
def badJsonTransport : Transport :=
  fun _ => .resp badJsonResp

theorem claim_C10_witness :
    (makeRequest exampleClient badJsonTransport).calls = exampleClient.maxRetries + 1 ∧
    (makeRequest exampleClient badJsonTransport).waits =
      (List.range exampleClient.maxRetries).map backoffDelay ∧
    ∃ pe, (makeRequest exampleClient badJsonTransport).result =
      Except.error (.apiError (finalErrorMessage exampleClient.maxRetries pe) none) :=
  claim_C10.2 exampleClient badJsonTransport
    (fun _ => ⟨_, "Unexpected end of JSON input", rfl, rfl, rfl⟩)
